import Mathlib

/-!
Verification development for the TimeCtlGUI widget
(src/gtk2_ardour/timectl_gui.cc).

Modelling conventions:
* samplepos_t / samplecnt_t (int64) values are modelled as ℤ; the arithmetic
  in this widget is far from the int64 range, so overflow is immaterial.
* double values (the Gtk adjustment value and the button shift amounts) are
  modelled as ℚ, the standard exact idealization of IEEE doubles; all
  constants involved (sample_rate / 1000.0 etc.) are exact rationals.
* The external collaborators ARDOUR::Latent, ARDOUR::TailTime,
  Gtk::Adjustment and ARDOUR::RCConfiguration are not part of the provided
  sources; they are modelled from the spec, as documented on each definition.
* Every operation returns, besides the new widget state, a ghost event log
  of the mutating calls it made on the external Latent / TailTime object,
  so that claims of the form "does not call set_user_latency" are statable.
-/

namespace TimeCtl

/-- The CLAMP macro used by gtk_adjustment_set_value:
if v is above hi the result is hi, else if below lo the result is lo, else v. -/
def gtkClamp (v lo hi : ℚ) : ℚ :=
  if v > hi then hi else if v < lo then lo else v

/-- Truncation toward zero: the effect of the C cast
(samplepos_t) on a double value, as in TimeCtlGUI::finish. -/
def ratTrunc (q : ℚ) : ℤ :=
  if q < 0 then ⌈q⌉ else ⌊q⌋

/-- The state of a Gtk::Adjustment, as configured by the TimeCtlGUI
constructors: current value, range and increments. -/
structure Adjustment where
  value : ℚ
  lower : ℚ
  upper : ℚ
  step_increment : ℚ
  page_increment : ℚ
  page_size : ℚ
  deriving Repr, DecidableEq

/-- Modelled from the spec: Gtk::Adjustment::set_value of the bundled
toolkit (ytk, a GTK2 fork), an opaque collaborator in the spec. The spec
records only that the adjustment "value never exceeds its configured
bound"; accordingly set_value stores the requested value clamped to the
configured range [lower, upper]. -/
def Adjustment.set_value (a : Adjustment) (v : ℚ) : Adjustment :=
  { a with value := gtkClamp v a.lower a.upper }

/-- Modelled from the spec: the external ARDOUR::Latent object
(ardour/latent.h is not among the provided sources). Per the spec it owns
an authoritative latency value and a user override that the widget can
set, unset ("clear external override") and query; the effective value is
the override when present, else the signal latency. -/
structure Latent where
  signal_lat : ℤ
  user_lat : ℤ
  use_user : Bool
  deriving Repr, DecidableEq

def Latent.signal_latency (l : Latent) : ℤ := l.signal_lat

def Latent.effective_latency (l : Latent) : ℤ :=
  if l.use_user then l.user_lat else l.signal_lat

def Latent.set_user_latency (l : Latent) (v : ℤ) : Latent :=
  { l with user_lat := v, use_user := true }

def Latent.unset_user_latency (l : Latent) : Latent :=
  { l with use_user := false }

/-- Modelled from the spec: the external ARDOUR::TailTime object
(ardour/tailtime.h is not among the provided sources), symmetric to
Latent: a signal tail-time, a user override, and the effective value. -/
structure TailTime where
  signal_tail : ℤ
  user_tail : ℤ
  use_user : Bool
  deriving Repr, DecidableEq

def TailTime.signal_tailtime (t : TailTime) : ℤ := t.signal_tail

def TailTime.effective_tailtime (t : TailTime) : ℤ :=
  if t.use_user then t.user_tail else t.signal_tail

def TailTime.set_user_tailtime (t : TailTime) (v : ℤ) : TailTime :=
  { t with user_tail := v, use_user := true }

def TailTime.unset_user_tailtime (t : TailTime) : TailTime :=
  { t with use_user := false }

/-- Ghost log entries: the mutating calls a widget operation performs on
its external Latent / TailTime collaborator. -/
inductive ExtEvent where
  | setUserLatency (v : ℤ)
  | unsetUserLatency
  | setUserTailtime (v : ℤ)
  | unsetUserTailtime
  deriving Repr, DecidableEq

/-- The TimeCtlGUI widget state: the fields of the C++ class that carry
behaviour. `units_combo_text` is the active text of the units combo;
`latent` / `tailtime` mirror the `_latent` / `_tailtime` pointers (the
external object state is kept inline so its evolution can be stated). -/
structure TimeCtlGUI where
  sample_rate : ℤ
  period_size : ℤ
  ignore_change : Bool
  adjustment : Adjustment
  latent : Option Latent
  tailtime : Option TailTime
  units_combo_text : String
  deriving Repr, DecidableEq

/-- The three recognized unit strings of the units combo
(`_unit_strings`, in the untranslated C locale). -/
def unit_strings : List String := ["sample", "msec", "period"]

/-- TimeCtlGUI::finish (timectl_gui.cc lines 165-177): if the
ignore-change guard is set, do nothing; otherwise cast the adjustment
value to samplepos_t and push it with set_user_latency (Latent widget)
or set_user_tailtime (TailTime widget). -/
def TimeCtlGUI.finish (g : TimeCtlGUI) : TimeCtlGUI × List ExtEvent :=
  if g.ignore_change then (g, [])
  else
    let new_value : ℤ := ratTrunc g.adjustment.value
    match g.latent with
    | some l =>
        ({ g with latent := some (l.set_user_latency new_value) },
         [ExtEvent.setUserLatency new_value])
    | none =>
        match g.tailtime with
        | some t =>
            ({ g with tailtime := some (t.set_user_tailtime new_value) },
             [ExtEvent.setUserTailtime new_value])
        | none => (g, [])

/-- A set_value on the adjustment after init has connected
signal_value_changed to finish: the value is clamped and stored, and when
it actually changed the value-changed handler (finish) runs.
The clamping and change-detection of the toolkit adjustment are modelled
from the spec (see Adjustment.set_value). -/
def TimeCtlGUI.set_value_notify (g : TimeCtlGUI) (v : ℚ) : TimeCtlGUI × List ExtEvent :=
  let c := gtkClamp v g.adjustment.lower g.adjustment.upper
  if c = g.adjustment.value then (g, [])
  else
    TimeCtlGUI.finish { g with adjustment := { g.adjustment with value := c } }

/-- TimeCtlGUI::refresh (lines 193-202): under a PBD::Unwinder that holds
_ignore_change true and restores its previous value on exit, pull the
effective external value, capped by sample_rate (Latent) or by
Config->get_max_tail_samples() (TailTime; the config read is the
`max_tail` argument, rc_configuration is not among the provided sources),
into the adjustment. -/
def TimeCtlGUI.refresh (max_tail : ℤ) (g : TimeCtlGUI) : TimeCtlGUI × List ExtEvent :=
  let saved := g.ignore_change
  let g1 := { g with ignore_change := true }
  let r :=
    match g1.latent with
    | some l => g1.set_value_notify ((min g1.sample_rate l.effective_latency : ℤ) : ℚ)
    | none =>
        match g1.tailtime with
        | some t => g1.set_value_notify ((min max_tail t.effective_tailtime : ℤ) : ℚ)
        | none => (g1, [])
  ({ r.1 with ignore_change := saved }, r.2)

/-- TimeCtlGUI::reset (lines 179-191): clear the external override
(unset_user_latency / unset_user_tailtime), then under an Unwinder
holding _ignore_change true pull the signal value, capped by sample_rate
(Latent) or by Config->get_max_tail_samples() (TailTime), into the
adjustment. -/
def TimeCtlGUI.reset (max_tail : ℤ) (g : TimeCtlGUI) : TimeCtlGUI × List ExtEvent :=
  match g.latent with
  | some l =>
      let g0 := { g with latent := some l.unset_user_latency }
      let saved := g0.ignore_change
      let g1 := { g0 with ignore_change := true }
      let r := g1.set_value_notify ((min g1.sample_rate l.signal_latency : ℤ) : ℚ)
      ({ r.1 with ignore_change := saved }, ExtEvent.unsetUserLatency :: r.2)
  | none =>
      match g.tailtime with
      | some t =>
          let g0 := { g with tailtime := some t.unset_user_tailtime }
          let saved := g0.ignore_change
          let g1 := { g0 with ignore_change := true }
          let r := g1.set_value_notify ((min max_tail t.signal_tailtime : ℤ) : ℚ)
          ({ r.1 with ignore_change := saved }, ExtEvent.unsetUserTailtime :: r.2)
      | none => (g, [])

/-- The shift amount chosen by TimeCtlGUI::change_from_button from the
active text of the units combo; none models the fatal-error path
(programming error logged, abort()). -/
def TimeCtlGUI.unit_shift (g : TimeCtlGUI) : Option ℚ :=
  if g.units_combo_text = "sample" then some 1
  else if g.units_combo_text = "msec" then some ((g.sample_rate : ℚ) / 1000)
  else if g.units_combo_text = "period" then some ((g.period_size : ℚ))
  else none

/-- TimeCtlGUI::change_from_button (lines 204-227): pick the shift from
the unit combo (aborting on an unrecognized string), then add it to the
adjustment value when dir > 0 and subtract it otherwise. -/
def TimeCtlGUI.change_from_button (g : TimeCtlGUI) (dir : ℤ) : Option (TimeCtlGUI × List ExtEvent) :=
  match g.unit_shift with
  | none => none
  | some shift =>
      if dir > 0 then some (g.set_value_notify (g.adjustment.value + shift))
      else some (g.set_value_notify (g.adjustment.value - shift))

/-- TimeCtlGUIControllable::set_value (lines 64-68): forwards to
adjustment.set_value, which (post-init) notifies finish. -/
def TimeCtlGUI.ctrl_set_value (g : TimeCtlGUI) (v : ℚ) : TimeCtlGUI × List ExtEvent :=
  g.set_value_notify v

/-- The Latent constructor (lines 87-98) plus init (lines 113-163):
adjustment (0, 0.0, sample_rate, 1.0, sample_rate / 1000.0f), Gtkmm
default page_size 0; init selects the first unit string, sets the
adjustment to min (sample_rate, signal_latency()) and only then connects
signal_value_changed to finish, so construction notifies nothing. -/
def mkLatentGUI (l : Latent) (sr psz : ℤ) : TimeCtlGUI × List ExtEvent :=
  let adj : Adjustment :=
    { value := 0, lower := 0, upper := (sr : ℚ),
      step_increment := 1, page_increment := (sr : ℚ) / 1000, page_size := 0 }
  let g : TimeCtlGUI :=
    { sample_rate := sr, period_size := psz, ignore_change := false,
      adjustment := adj, latent := some l, tailtime := none,
      units_combo_text := "sample" }
  ({ g with adjustment := g.adjustment.set_value ((min sr l.signal_latency : ℤ) : ℚ) }, [])

/-- The TailTime constructor (lines 100-111) plus init: adjustment
(0, 0.0, 20 * sample_rate, sample_rate / 1000.f, 1.0, sample_rate / 2.0f);
init sets the adjustment to min (sample_rate, signal_tailtime()) before
connecting finish. -/
def mkTailTimeGUI (t : TailTime) (sr psz : ℤ) : TimeCtlGUI × List ExtEvent :=
  let adj : Adjustment :=
    { value := 0, lower := 0, upper := ((20 * sr : ℤ) : ℚ),
      step_increment := (sr : ℚ) / 1000, page_increment := 1, page_size := (sr : ℚ) / 2 }
  let g : TimeCtlGUI :=
    { sample_rate := sr, period_size := psz, ignore_change := false,
      adjustment := adj, latent := none, tailtime := some t,
      units_combo_text := "sample" }
  ({ g with adjustment := g.adjustment.set_value ((min sr t.signal_tailtime : ℤ) : ℚ) }, [])

/-- The operations a constructed widget can undergo: the value-changed
handler, reset and refresh (each reading the config cap at call time),
selecting a unit in the combo, the plus/minus buttons, and the
Controllable set_value. -/
inductive Op where
  | finishOp
  | resetOp (max_tail : ℤ)
  | refreshOp (max_tail : ℤ)
  | setUnit (s : String)
  | button (dir : ℤ)
  | ctrlSet (v : ℚ)
  deriving Repr, DecidableEq

/-- One operation step; none models process termination by the fatal
path of change_from_button. -/
def TimeCtlGUI.runOp (g : TimeCtlGUI) : Op → Option TimeCtlGUI
  | Op.finishOp => some g.finish.1
  | Op.resetOp mt => some (TimeCtlGUI.reset mt g).1
  | Op.refreshOp mt => some (TimeCtlGUI.refresh mt g).1
  | Op.setUnit s => some { g with units_combo_text := s }
  | Op.button d => (g.change_from_button d).map Prod.fst
  | Op.ctrlSet v => some (g.ctrl_set_value v).1

/-- Run a sequence of operations. -/
def TimeCtlGUI.run (g : TimeCtlGUI) : List Op → Option TimeCtlGUI
  | [] => some g
  | op :: ops =>
      match g.runOp op with
      | none => none
      | some g1 => g1.run ops


/-! ### Helper lemmas -/

theorem gtkClamp_lower_le {v lo hi : ℚ} (h : lo ≤ hi) : lo ≤ gtkClamp v lo hi := by
  unfold gtkClamp
  split
  · exact h
  · split
    · exact le_refl lo
    · linarith [not_lt.mp (by assumption : ¬ v < lo)]

theorem gtkClamp_le_upper {v lo hi : ℚ} (h : lo ≤ hi) : gtkClamp v lo hi ≤ hi := by
  unfold gtkClamp
  split
  · exact le_refl hi
  · split
    · exact h
    · linarith [not_lt.mp (by assumption : ¬ v > hi)]

theorem gtkClamp_of_mem {v lo hi : ℚ} (h1 : lo ≤ v) (h2 : v ≤ hi) : gtkClamp v lo hi = v := by
  unfold gtkClamp
  split
  · linarith
  · split
    · linarith
    · rfl

theorem finish_fst_adjustment (g : TimeCtlGUI) : g.finish.1.adjustment = g.adjustment := by
  unfold TimeCtlGUI.finish
  split
  · rfl
  · cases hl : g.latent with
    | some l => simp [hl]
    | none =>
        cases ht : g.tailtime with
        | some t => simp [hl, ht]
        | none => simp [hl, ht]

theorem finish_fst_ignore (g : TimeCtlGUI) : g.finish.1.ignore_change = g.ignore_change := by
  unfold TimeCtlGUI.finish
  split
  · rfl
  · cases hl : g.latent with
    | some l => simp [hl]
    | none =>
        cases ht : g.tailtime with
        | some t => simp [hl, ht]
        | none => simp [hl, ht]

theorem finish_guarded {g : TimeCtlGUI} (h : g.ignore_change = true) : g.finish = (g, []) := by
  unfold TimeCtlGUI.finish
  simp [h]

theorem svn_fst_adjustment (g : TimeCtlGUI) (v : ℚ) :
    (g.set_value_notify v).1.adjustment = g.adjustment.set_value v := by
  unfold TimeCtlGUI.set_value_notify Adjustment.set_value
  dsimp only
  split
  · rename_i h
    rw [h]
  · rw [finish_fst_adjustment]

theorem svn_fst_ignore (g : TimeCtlGUI) (v : ℚ) :
    (g.set_value_notify v).1.ignore_change = g.ignore_change := by
  unfold TimeCtlGUI.set_value_notify
  dsimp only
  split
  · rfl
  · rw [finish_fst_ignore]

theorem svn_guarded {g : TimeCtlGUI} (v : ℚ) (h : g.ignore_change = true) :
    g.set_value_notify v = ({ g with adjustment := g.adjustment.set_value v }, []) := by
  unfold TimeCtlGUI.set_value_notify Adjustment.set_value
  dsimp only
  split
  · rename_i hc
    rw [hc]
  · exact finish_guarded h

theorem refresh_latent_eqn {g : TimeCtlGUI} {l : Latent} (mt : ℤ) (h : g.latent = some l) :
    TimeCtlGUI.refresh mt g =
      ({ g with adjustment :=
          g.adjustment.set_value ((min g.sample_rate l.effective_latency : ℤ) : ℚ) }, []) := by
  rcases g with ⟨sr, psz, ig, adj, glat, gtt, u⟩
  dsimp only at h
  subst h
  unfold TimeCtlGUI.refresh
  dsimp only
  rw [svn_guarded _ rfl]

theorem refresh_tailtime_eqn {g : TimeCtlGUI} {t : TailTime} (mt : ℤ)
    (hl : g.latent = none) (ht : g.tailtime = some t) :
    TimeCtlGUI.refresh mt g =
      ({ g with adjustment :=
          g.adjustment.set_value ((min mt t.effective_tailtime : ℤ) : ℚ) }, []) := by
  rcases g with ⟨sr, psz, ig, adj, glat, gtt, u⟩
  dsimp only at hl ht
  subst hl
  subst ht
  unfold TimeCtlGUI.refresh
  dsimp only
  rw [svn_guarded _ rfl]

theorem refresh_none_eqn {g : TimeCtlGUI} (mt : ℤ)
    (hl : g.latent = none) (ht : g.tailtime = none) :
    TimeCtlGUI.refresh mt g = (g, []) := by
  rcases g with ⟨sr, psz, ig, adj, glat, gtt, u⟩
  dsimp only at hl ht
  subst hl
  subst ht
  unfold TimeCtlGUI.refresh
  dsimp only

theorem reset_latent_eqn {g : TimeCtlGUI} {l : Latent} (mt : ℤ) (h : g.latent = some l) :
    TimeCtlGUI.reset mt g =
      ({ g with
          latent := some l.unset_user_latency
          adjustment := g.adjustment.set_value ((min g.sample_rate l.signal_latency : ℤ) : ℚ) },
        [ExtEvent.unsetUserLatency]) := by
  rcases g with ⟨sr, psz, ig, adj, glat, gtt, u⟩
  dsimp only at h
  subst h
  unfold TimeCtlGUI.reset
  dsimp only
  rw [svn_guarded _ rfl]

theorem reset_tailtime_eqn {g : TimeCtlGUI} {t : TailTime} (mt : ℤ)
    (hl : g.latent = none) (ht : g.tailtime = some t) :
    TimeCtlGUI.reset mt g =
      ({ g with
          tailtime := some t.unset_user_tailtime
          adjustment := g.adjustment.set_value ((min mt t.signal_tailtime : ℤ) : ℚ) },
        [ExtEvent.unsetUserTailtime]) := by
  rcases g with ⟨sr, psz, ig, adj, glat, gtt, u⟩
  dsimp only at hl ht
  subst hl
  subst ht
  unfold TimeCtlGUI.reset
  dsimp only
  rw [svn_guarded _ rfl]

theorem reset_none_eqn {g : TimeCtlGUI} (mt : ℤ)
    (hl : g.latent = none) (ht : g.tailtime = none) :
    TimeCtlGUI.reset mt g = (g, []) := by
  rcases g with ⟨sr, psz, ig, adj, glat, gtt, u⟩
  dsimp only at hl ht
  subst hl
  subst ht
  unfold TimeCtlGUI.reset
  dsimp only

/-! ### Concrete widget states used as counterexamples and witnesses -/

/-- A Latent widget at sample rate 44100 whose adjustment holds the
fractional value 44.1 — the state produced by one press of the plus
button with the msec unit selected (shift 44100 / 1000). -/
def cexGUI1 : TimeCtlGUI :=
  { sample_rate := 44100, period_size := 1024, ignore_change := false,
    adjustment := { value := 441/10, lower := 0, upper := 44100,
                    step_increment := 1, page_increment := 441/10, page_size := 0 },
    latent := some { signal_lat := 0, user_lat := 0, use_user := false },
    tailtime := none, units_combo_text := "msec" }

/-- A small concrete Latent widget with an integral adjustment value. -/
def witGUI1 : TimeCtlGUI :=
  { sample_rate := 10, period_size := 2, ignore_change := false,
    adjustment := { value := 5, lower := 0, upper := 10,
                    step_increment := 1, page_increment := 1, page_size := 0 },
    latent := some { signal_lat := 5, user_lat := 0, use_user := false },
    tailtime := none, units_combo_text := "sample" }

/-- A Latent widget whose external signal latency 48001 exceeds the
sample rate 48000, with a user override in force. -/
def cexGUI2 : TimeCtlGUI :=
  { sample_rate := 48000, period_size := 1024, ignore_change := false,
    adjustment := { value := 100, lower := 0, upper := 48000,
                    step_increment := 1, page_increment := 48, page_size := 0 },
    latent := some { signal_lat := 48001, user_lat := 7, use_user := true },
    tailtime := none, units_combo_text := "sample" }

/-- A small concrete Latent widget with a user override in force. -/
def witGUI2 : TimeCtlGUI :=
  { sample_rate := 10, period_size := 2, ignore_change := false,
    adjustment := { value := 2, lower := 0, upper := 10,
                    step_increment := 1, page_increment := 1, page_size := 0 },
    latent := some { signal_lat := 7, user_lat := 3, use_user := true },
    tailtime := none, units_combo_text := "sample" }

/-! ### C1 -/

/-- C1 (counterexample): on a Latent widget whose guard is false and whose
adjustment holds 44.1, finish calls set_user_latency with 44, which is not
the adjustment value — so finish does not push the adjustment value itself. -/
theorem finish_pushes_exact_value_cex :
    cexGUI1.ignore_change = false ∧
    cexGUI1.finish.2 = [ExtEvent.setUserLatency 44] ∧
    ((44 : ℤ) : ℚ) ≠ cexGUI1.adjustment.value := by
  refine ⟨rfl, ?_, by norm_num [cexGUI1]⟩
  norm_num [cexGUI1, TimeCtlGUI.finish, ratTrunc]

/-- C1 (amended): for every TimeCtlGUI whose ignore-change guard is false,
finish pushes the current adjustment value truncated toward zero to an
integer (the samplepos_t cast) to the external object: set_user_latency
with that integer when the widget wraps a Latent, set_user_tailtime with
it when it wraps a TailTime, and changes nothing else. -/
theorem finish_pushes_truncated_value :
    (∀ (g : TimeCtlGUI) (l : Latent), g.ignore_change = false → g.latent = some l →
      g.finish =
        ({ g with latent := some (l.set_user_latency (ratTrunc g.adjustment.value)) },
          [ExtEvent.setUserLatency (ratTrunc g.adjustment.value)])) ∧
    (∀ (g : TimeCtlGUI) (t : TailTime), g.ignore_change = false → g.latent = none →
      g.tailtime = some t →
      g.finish =
        ({ g with tailtime := some (t.set_user_tailtime (ratTrunc g.adjustment.value)) },
          [ExtEvent.setUserTailtime (ratTrunc g.adjustment.value)])) := by
  constructor
  · intro g l hig hl
    unfold TimeCtlGUI.finish
    rw [hig, hl]
    rfl
  · intro g t hig hl ht
    unfold TimeCtlGUI.finish
    rw [hig, hl, ht]
    rfl

/-- C1 (witness): the amended theorem applied to a concrete Latent widget
with adjustment value 5: finish pushes 5 via set_user_latency. -/
theorem finish_pushes_truncated_value_witness :
    witGUI1.finish =
      ({ witGUI1 with latent := some { signal_lat := 5, user_lat := 5, use_user := true } },
        [ExtEvent.setUserLatency 5]) := by
  have h := finish_pushes_truncated_value.1 witGUI1
    { signal_lat := 5, user_lat := 0, use_user := false } rfl rfl
  rw [h]
  norm_num [witGUI1, ratTrunc, Latent.set_user_latency]

/-! ### C2 -/

/-- C2 (counterexample): on a Latent widget with sample rate 48000 and
signal latency 48001, reset clears the override (making the external
effective latency 48001) but sets the adjustment to 48000, not to the
effective value. -/
theorem reset_pulls_effective_value_cex :
    (TimeCtlGUI.reset 960000 cexGUI2).1.latent =
      some { signal_lat := 48001, user_lat := 7, use_user := false } ∧
    Latent.effective_latency { signal_lat := 48001, user_lat := 7, use_user := false } = 48001 ∧
    (TimeCtlGUI.reset 960000 cexGUI2).1.adjustment.value = 48000 ∧
    (48000 : ℚ) ≠ ((48001 : ℤ) : ℚ) := by
  have h := reset_latent_eqn (g := cexGUI2)
    (l := { signal_lat := 48001, user_lat := 7, use_user := true }) 960000 rfl
  rw [h]
  refine ⟨rfl, rfl, ?_, by norm_num⟩
  norm_num [cexGUI2, Adjustment.set_value, gtkClamp, Latent.signal_latency]

/-- C2 (amended): reset first clears the external override
(unset_user_latency / unset_user_tailtime), making the external effective
value equal to the signal value, then sets the local adjustment to that
effective value clamped to the widget's configured maximum (sample_rate
for a Latent widget, Config->get_max_tail_samples() for a TailTime widget)
and to the adjustment's range, with the feedback guard suppressed so that
no value is pushed back during the update. -/
theorem reset_pulls_clamped_value :
    (∀ (g : TimeCtlGUI) (l : Latent) (mt : ℤ), g.latent = some l →
      TimeCtlGUI.reset mt g =
        ({ g with
            latent := some l.unset_user_latency
            adjustment := g.adjustment.set_value ((min g.sample_rate l.signal_latency : ℤ) : ℚ) },
          [ExtEvent.unsetUserLatency]) ∧
      l.unset_user_latency.effective_latency = l.signal_latency) ∧
    (∀ (g : TimeCtlGUI) (t : TailTime) (mt : ℤ), g.latent = none → g.tailtime = some t →
      TimeCtlGUI.reset mt g =
        ({ g with
            tailtime := some t.unset_user_tailtime
            adjustment := g.adjustment.set_value ((min mt t.signal_tailtime : ℤ) : ℚ) },
          [ExtEvent.unsetUserTailtime]) ∧
      t.unset_user_tailtime.effective_tailtime = t.signal_tailtime) := by
  constructor
  · intro g l mt hl
    exact ⟨reset_latent_eqn mt hl, rfl⟩
  · intro g t mt hl ht
    exact ⟨reset_tailtime_eqn mt hl ht, rfl⟩

/-- C2 (witness): the amended theorem applied to a concrete Latent widget
with override in force and signal latency 7 below the sample rate 10:
reset unsets the override and the adjustment becomes 7. -/
theorem reset_pulls_clamped_value_witness :
    TimeCtlGUI.reset 100 witGUI2 =
      ({ sample_rate := 10, period_size := 2, ignore_change := false,
         adjustment := { value := 7, lower := 0, upper := 10,
                         step_increment := 1, page_increment := 1, page_size := 0 },
         latent := some { signal_lat := 7, user_lat := 3, use_user := false },
         tailtime := none, units_combo_text := "sample" },
        [ExtEvent.unsetUserLatency]) := by
  have h := (reset_pulls_clamped_value.1 witGUI2
    { signal_lat := 7, user_lat := 3, use_user := true } 100 rfl).1
  rw [h]
  norm_num [witGUI2, Adjustment.set_value, gtkClamp, Latent.signal_latency,
    Latent.unset_user_latency]

/-! ### C3 -/

/-- A concrete Latent widget whose user override 9 is in force, so the
effective latency 9 differs from the signal latency 4. -/
def witGUI3 : TimeCtlGUI :=
  { sample_rate := 10, period_size := 2, ignore_change := false,
    adjustment := { value := 2, lower := 0, upper := 10,
                    step_increment := 1, page_increment := 1, page_size := 0 },
    latent := some { signal_lat := 4, user_lat := 9, use_user := true },
    tailtime := none, units_combo_text := "sample" }

/-- C3: refresh pulls the external value — effective_latency for a Latent
widget clamped to sample_rate, effective_tailtime for a TailTime widget
clamped to Config->get_max_tail_samples() — into the local adjustment
(exactly, whenever the clamped value lies in the adjustment range), with
the feedback guard suppressed: it performs no external call at all, in
particular no set_user_latency or set_user_tailtime. -/
theorem refresh_pulls_effective_value :
    (∀ (g : TimeCtlGUI) (l : Latent) (mt : ℤ), g.latent = some l →
      (TimeCtlGUI.refresh mt g).2 = [] ∧
      (TimeCtlGUI.refresh mt g).1.latent = g.latent ∧
      (TimeCtlGUI.refresh mt g).1.tailtime = g.tailtime ∧
      (g.adjustment.lower ≤ ((min g.sample_rate l.effective_latency : ℤ) : ℚ) →
        ((min g.sample_rate l.effective_latency : ℤ) : ℚ) ≤ g.adjustment.upper →
        (TimeCtlGUI.refresh mt g).1.adjustment.value =
          ((min g.sample_rate l.effective_latency : ℤ) : ℚ))) ∧
    (∀ (g : TimeCtlGUI) (t : TailTime) (mt : ℤ), g.latent = none → g.tailtime = some t →
      (TimeCtlGUI.refresh mt g).2 = [] ∧
      (TimeCtlGUI.refresh mt g).1.latent = g.latent ∧
      (TimeCtlGUI.refresh mt g).1.tailtime = g.tailtime ∧
      (g.adjustment.lower ≤ ((min mt t.effective_tailtime : ℤ) : ℚ) →
        ((min mt t.effective_tailtime : ℤ) : ℚ) ≤ g.adjustment.upper →
        (TimeCtlGUI.refresh mt g).1.adjustment.value =
          ((min mt t.effective_tailtime : ℤ) : ℚ))) := by
  constructor
  · intro g l mt hl
    rw [refresh_latent_eqn mt hl]
    refine ⟨rfl, rfl, rfl, ?_⟩
    intro h1 h2
    exact gtkClamp_of_mem h1 h2
  · intro g t mt hl ht
    rw [refresh_tailtime_eqn mt hl ht]
    refine ⟨rfl, rfl, rfl, ?_⟩
    intro h1 h2
    exact gtkClamp_of_mem h1 h2

/-- C3 (witness): on a concrete Latent widget with override 9 in force,
refresh makes no external call and sets the adjustment to the effective
latency 9 (not the signal latency 4). -/
theorem refresh_pulls_effective_value_witness :
    (TimeCtlGUI.refresh 100 witGUI3).2 = [] ∧
    (TimeCtlGUI.refresh 100 witGUI3).1.adjustment.value = 9 := by
  have h := refresh_pulls_effective_value.1 witGUI3
    { signal_lat := 4, user_lat := 9, use_user := true } 100 rfl
  refine ⟨h.1, ?_⟩
  have hv := h.2.2.2 (by norm_num [witGUI3, Latent.effective_latency])
    (by norm_num [witGUI3, Latent.effective_latency])
  rw [hv]
  norm_num [witGUI3, Latent.effective_latency]

/-! ### C4 -/

/-- A concrete Latent widget whose ignore-change guard is raised. -/
def witGUI4 : TimeCtlGUI :=
  { sample_rate := 10, period_size := 2, ignore_change := true,
    adjustment := { value := 5, lower := 0, upper := 10,
                    step_increment := 1, page_increment := 1, page_size := 0 },
    latent := some { signal_lat := 5, user_lat := 0, use_user := false },
    tailtime := none, units_combo_text := "sample" }

/-- C4: while the ignore-change guard is raised, the value-changed handler
finish is a no-op, leaving the state untouched and making no external
call; refresh (which runs under the raised guard) never touches the
external Latent / TailTime object and never emits an event, reset emits
only unset events (never set_user_latency / set_user_tailtime); and both
restore the guard to its value before the call, so a call made with the
guard down ends with the guard down. -/
theorem ignore_change_guard_blocks_feedback :
    (∀ g : TimeCtlGUI, g.ignore_change = true → g.finish = (g, [])) ∧
    (∀ (mt : ℤ) (g : TimeCtlGUI),
      (TimeCtlGUI.refresh mt g).1.latent = g.latent ∧
      (TimeCtlGUI.refresh mt g).1.tailtime = g.tailtime ∧
      (TimeCtlGUI.refresh mt g).2 = [] ∧
      (TimeCtlGUI.refresh mt g).1.ignore_change = g.ignore_change) ∧
    (∀ (mt : ℤ) (g : TimeCtlGUI),
      (∀ e ∈ (TimeCtlGUI.reset mt g).2,
        e = ExtEvent.unsetUserLatency ∨ e = ExtEvent.unsetUserTailtime) ∧
      (TimeCtlGUI.reset mt g).1.ignore_change = g.ignore_change) := by
  refine ⟨fun g h => finish_guarded h, ?_, ?_⟩
  · intro mt g
    rcases hl : g.latent with _ | l
    · rcases ht : g.tailtime with _ | t
      · rw [refresh_none_eqn mt hl ht]
        exact ⟨hl, ht, rfl, rfl⟩
      · rw [refresh_tailtime_eqn mt hl ht]
        exact ⟨hl, ht, rfl, rfl⟩
    · rw [refresh_latent_eqn mt hl]
      exact ⟨hl, rfl, rfl, rfl⟩
  · intro mt g
    rcases hl : g.latent with _ | l
    · rcases ht : g.tailtime with _ | t
      · rw [reset_none_eqn mt hl ht]
        exact ⟨by simp, rfl⟩
      · rw [reset_tailtime_eqn mt hl ht]
        exact ⟨by simp, rfl⟩
    · rw [reset_latent_eqn mt hl]
      exact ⟨by simp, rfl⟩

/-- C4 (witness): on a concrete widget with the guard raised, finish is a
no-op; and on the same widget a refresh makes no external call and leaves
the guard as it found it. -/
theorem ignore_change_guard_blocks_feedback_witness :
    witGUI4.finish = (witGUI4, []) ∧
    (TimeCtlGUI.refresh 50 witGUI4).2 = [] ∧
    (TimeCtlGUI.refresh 50 witGUI4).1.ignore_change = true := by
  refine ⟨ignore_change_guard_blocks_feedback.1 witGUI4 rfl, ?_, ?_⟩
  · exact (ignore_change_guard_blocks_feedback.2.1 50 witGUI4).2.2.1
  · exact (ignore_change_guard_blocks_feedback.2.1 50 witGUI4).2.2.2

/-! ### C5 -/

theorem runOp_adjustment {g g' : TimeCtlGUI} {op : Op} (h : g.runOp op = some g') :
    g'.adjustment.lower = g.adjustment.lower ∧
    g'.adjustment.upper = g.adjustment.upper ∧
    (g'.adjustment.value = g.adjustment.value ∨
      ∃ v, g'.adjustment.value = gtkClamp v g.adjustment.lower g.adjustment.upper) := by
  cases op with
  | finishOp =>
      unfold TimeCtlGUI.runOp at h
      injection h with h
      subst h
      rw [finish_fst_adjustment]
      exact ⟨rfl, rfl, Or.inl rfl⟩
  | resetOp mt =>
      unfold TimeCtlGUI.runOp at h
      injection h with h
      subst h
      rcases hl : g.latent with _ | l
      · rcases ht : g.tailtime with _ | t
        · rw [reset_none_eqn mt hl ht]
          exact ⟨rfl, rfl, Or.inl rfl⟩
        · rw [reset_tailtime_eqn mt hl ht]
          exact ⟨rfl, rfl, Or.inr ⟨_, rfl⟩⟩
      · rw [reset_latent_eqn mt hl]
        exact ⟨rfl, rfl, Or.inr ⟨_, rfl⟩⟩
  | refreshOp mt =>
      unfold TimeCtlGUI.runOp at h
      injection h with h
      subst h
      rcases hl : g.latent with _ | l
      · rcases ht : g.tailtime with _ | t
        · rw [refresh_none_eqn mt hl ht]
          exact ⟨rfl, rfl, Or.inl rfl⟩
        · rw [refresh_tailtime_eqn mt hl ht]
          exact ⟨rfl, rfl, Or.inr ⟨_, rfl⟩⟩
      · rw [refresh_latent_eqn mt hl]
        exact ⟨rfl, rfl, Or.inr ⟨_, rfl⟩⟩
  | setUnit s =>
      unfold TimeCtlGUI.runOp at h
      injection h with h
      subst h
      exact ⟨rfl, rfl, Or.inl rfl⟩
  | button d =>
      unfold TimeCtlGUI.runOp TimeCtlGUI.change_from_button at h
      rcases hs : g.unit_shift with _ | shift
      · rw [hs] at h
        simp at h
      · rw [hs] at h
        dsimp only at h
        by_cases hd : d > 0
        · rw [if_pos hd] at h
          rw [Option.map_some'] at h
          injection h with h
          subst h
          rw [svn_fst_adjustment]
          exact ⟨rfl, rfl, Or.inr ⟨_, rfl⟩⟩
        · rw [if_neg hd] at h
          rw [Option.map_some'] at h
          injection h with h
          subst h
          rw [svn_fst_adjustment]
          exact ⟨rfl, rfl, Or.inr ⟨_, rfl⟩⟩
  | ctrlSet v =>
      unfold TimeCtlGUI.runOp TimeCtlGUI.ctrl_set_value at h
      injection h with h
      subst h
      rw [svn_fst_adjustment]
      exact ⟨rfl, rfl, Or.inr ⟨_, rfl⟩⟩

theorem run_adjustment_range {ops : List Op} : ∀ {g g' : TimeCtlGUI},
    g.run ops = some g' →
    g.adjustment.lower ≤ g.adjustment.upper →
    g.adjustment.lower ≤ g.adjustment.value →
    g.adjustment.value ≤ g.adjustment.upper →
    g'.adjustment.lower = g.adjustment.lower ∧
    g'.adjustment.upper = g.adjustment.upper ∧
    g.adjustment.lower ≤ g'.adjustment.value ∧
    g'.adjustment.value ≤ g.adjustment.upper := by
  induction ops with
  | nil =>
      intro g g' h hlu hlv hvu
      unfold TimeCtlGUI.run at h
      injection h with h
      subst h
      exact ⟨rfl, rfl, hlv, hvu⟩
  | cons op ops ih =>
      intro g g' h hlu hlv hvu
      unfold TimeCtlGUI.run at h
      rcases hstep : g.runOp op with _ | g1
      · rw [hstep] at h
        exact absurd h (by simp)
      · rw [hstep] at h
        obtain ⟨e1, e2, e3⟩ := runOp_adjustment hstep
        have hv1 : g.adjustment.lower ≤ g1.adjustment.value ∧
            g1.adjustment.value ≤ g.adjustment.upper := by
          rcases e3 with e3 | ⟨v, e3⟩
          · rw [e3]
            exact ⟨hlv, hvu⟩
          · rw [e3]
            exact ⟨gtkClamp_lower_le hlu, gtkClamp_le_upper hlu⟩
        obtain ⟨f1, f2, f3, f4⟩ := ih h (by rw [e1, e2]; exact hlu)
          (by rw [e1]; exact hv1.1) (by rw [e2]; exact hv1.2)
        refine ⟨by rw [f1, e1], by rw [f2, e2], ?_, ?_⟩
        · rw [← e1]
          exact f3
        · rw [← e2]
          exact f4

/-- C5: starting from either constructor (with a nonnegative sample rate),
after any sequence of operations — finish, reset, refresh, unit selection,
plus/minus buttons, Controllable set_value — the adjustment value stays
within [0, sample_rate] for the Latent widget and [0, 20 * sample_rate]
for the TailTime widget. -/
theorem adjustment_value_stays_in_range :
    ∀ (l : Latent) (t : TailTime) (sr psz : ℤ) (ops : List Op), 0 ≤ sr →
      (∀ g', ((mkLatentGUI l sr psz).1).run ops = some g' →
        0 ≤ g'.adjustment.value ∧ g'.adjustment.value ≤ (sr : ℚ)) ∧
      (∀ g', ((mkTailTimeGUI t sr psz).1).run ops = some g' →
        0 ≤ g'.adjustment.value ∧ g'.adjustment.value ≤ ((20 * sr : ℤ) : ℚ)) := by
  intro l t sr psz ops hsr
  constructor
  · intro g' h
    have hlu : ((mkLatentGUI l sr psz).1).adjustment.lower ≤
        ((mkLatentGUI l sr psz).1).adjustment.upper := by
      show (0 : ℚ) ≤ (sr : ℚ)
      exact_mod_cast hsr
    obtain ⟨f1, f2, f3, f4⟩ := run_adjustment_range h hlu
      (gtkClamp_lower_le hlu) (gtkClamp_le_upper hlu)
    exact ⟨f3, f4⟩
  · intro g' h
    have hlu : ((mkTailTimeGUI t sr psz).1).adjustment.lower ≤
        ((mkTailTimeGUI t sr psz).1).adjustment.upper := by
      show (0 : ℚ) ≤ ((20 * sr : ℤ) : ℚ)
      have : (0 : ℤ) ≤ 20 * sr := by linarith
      exact_mod_cast this
    obtain ⟨f1, f2, f3, f4⟩ := run_adjustment_range h hlu
      (gtkClamp_lower_le hlu) (gtkClamp_le_upper hlu)
    exact ⟨f3, f4⟩

/-- C5 (witness): a concrete run — construct a Latent widget with signal
latency 3 at sample rate 10, then refresh with config cap 50 — succeeds
and ends with the adjustment value 3, inside [0, 10]. -/
theorem adjustment_value_stays_in_range_witness :
    TimeCtlGUI.run (mkLatentGUI { signal_lat := 3, user_lat := 0, use_user := false } 10 2).1
        [Op.refreshOp 50] =
      some (TimeCtlGUI.refresh 50
        (mkLatentGUI { signal_lat := 3, user_lat := 0, use_user := false } 10 2).1).1 ∧
    (TimeCtlGUI.refresh 50
        (mkLatentGUI { signal_lat := 3, user_lat := 0, use_user := false } 10 2).1).1.adjustment.value = 3 ∧
    0 ≤ (TimeCtlGUI.refresh 50
        (mkLatentGUI { signal_lat := 3, user_lat := 0, use_user := false } 10 2).1).1.adjustment.value ∧
    (TimeCtlGUI.refresh 50
        (mkLatentGUI { signal_lat := 3, user_lat := 0, use_user := false } 10 2).1).1.adjustment.value ≤
      ((10 : ℤ) : ℚ) := by
  refine ⟨rfl, ?_, ?_⟩
  · rw [refresh_latent_eqn 50 rfl]
    norm_num [mkLatentGUI, Adjustment.set_value, gtkClamp, Latent.effective_latency]
  · exact (adjustment_value_stays_in_range
      { signal_lat := 3, user_lat := 0, use_user := false }
      { signal_tail := 0, user_tail := 0, use_user := false } 10 2
      [Op.refreshOp 50] (by norm_num)).1 _ rfl

/-! ### C6 -/

/-- C6: change_from_button terminates the process (modelled by none,
after the fatal programming-error log) exactly when the active text of
the units combo is none of the three recognized unit strings; for a
recognized unit it instead applies the shifted value to the adjustment
through set_value. -/
theorem change_from_button_aborts_iff_unknown_unit :
    ∀ (g : TimeCtlGUI) (dir : ℤ),
      (g.change_from_button dir = none ↔ g.units_combo_text ∉ unit_strings) ∧
      (g.units_combo_text ∈ unit_strings →
        g.change_from_button dir =
          some (g.set_value_notify
            (if dir > 0 then g.adjustment.value + g.unit_shift.getD 0
             else g.adjustment.value - g.unit_shift.getD 0))) := by
  intro g dir
  by_cases h1 : g.units_combo_text = "sample"
  · constructor
    · by_cases hd : dir > 0 <;>
        simp [TimeCtlGUI.change_from_button, TimeCtlGUI.unit_shift, h1, hd, unit_strings]
    · intro _
      by_cases hd : dir > 0 <;>
        simp [TimeCtlGUI.change_from_button, TimeCtlGUI.unit_shift, h1, hd]
  · by_cases h2 : g.units_combo_text = "msec"
    · constructor
      · by_cases hd : dir > 0 <;>
          simp [TimeCtlGUI.change_from_button, TimeCtlGUI.unit_shift, h1, h2, hd, unit_strings]
      · intro _
        by_cases hd : dir > 0 <;>
          simp [TimeCtlGUI.change_from_button, TimeCtlGUI.unit_shift, h1, h2, hd]
    · by_cases h3 : g.units_combo_text = "period"
      · constructor
        · by_cases hd : dir > 0 <;>
            simp [TimeCtlGUI.change_from_button, TimeCtlGUI.unit_shift, h1, h2, h3, hd, unit_strings]
        · intro _
          by_cases hd : dir > 0 <;>
            simp [TimeCtlGUI.change_from_button, TimeCtlGUI.unit_shift, h1, h2, h3, hd]
      · have hn : g.units_combo_text ∉ unit_strings := by
          simp [unit_strings, h1, h2, h3]
        constructor
        · simp [TimeCtlGUI.change_from_button, TimeCtlGUI.unit_shift, h1, h2, h3, hn]
        · intro hmem
          exact absurd hmem hn

/-- C6 (witness): with the recognized unit string sample active,
change_from_button does not abort and applies the incremented value. -/
theorem change_from_button_aborts_iff_unknown_unit_witness :
    witGUI1.units_combo_text ∈ unit_strings ∧
    witGUI1.change_from_button 1 =
      some (witGUI1.set_value_notify (witGUI1.adjustment.value + witGUI1.unit_shift.getD 0)) := by
  have hm : witGUI1.units_combo_text ∈ unit_strings := by simp [witGUI1, unit_strings]
  refine ⟨hm, ?_⟩
  have h := (change_from_button_aborts_iff_unknown_unit witGUI1 1).2 hm
  rw [h]
  norm_num

/-! ### C7 -/

theorem finish_units_frame (g : TimeCtlGUI) (u : String) :
    TimeCtlGUI.finish { g with units_combo_text := u } =
      ({ g.finish.1 with units_combo_text := u }, g.finish.2) := by
  rcases g with ⟨sr, psz, ig, adj, lat, tt, u0⟩
  cases ig <;> rcases lat with _ | l <;> rcases tt with _ | t <;>
    simp [TimeCtlGUI.finish]

theorem svn_units_frame (g : TimeCtlGUI) (u : String) (v : ℚ) :
    TimeCtlGUI.set_value_notify { g with units_combo_text := u } v =
      ({ (g.set_value_notify v).1 with units_combo_text := u },
        (g.set_value_notify v).2) := by
  by_cases hc : gtkClamp v g.adjustment.lower g.adjustment.upper = g.adjustment.value
  · have h1 : g.set_value_notify v = (g, []) := by
      unfold TimeCtlGUI.set_value_notify
      dsimp only
      rw [if_pos hc]
    have h2 : TimeCtlGUI.set_value_notify { g with units_combo_text := u } v =
        ({ g with units_combo_text := u }, []) := by
      unfold TimeCtlGUI.set_value_notify
      dsimp only
      rw [if_pos hc]
    rw [h1, h2]
  · have h1 : g.set_value_notify v =
        TimeCtlGUI.finish { g with adjustment :=
          { g.adjustment with value := gtkClamp v g.adjustment.lower g.adjustment.upper } } := by
      unfold TimeCtlGUI.set_value_notify
      dsimp only
      rw [if_neg hc]
    have h2 : TimeCtlGUI.set_value_notify { g with units_combo_text := u } v =
        TimeCtlGUI.finish { g with
          adjustment :=
            { g.adjustment with value := gtkClamp v g.adjustment.lower g.adjustment.upper }
          units_combo_text := u } := by
      unfold TimeCtlGUI.set_value_notify
      dsimp only
      rw [if_neg hc]
    rw [h1, h2]
    exact finish_units_frame { g with adjustment :=
      { g.adjustment with value := gtkClamp v g.adjustment.lower g.adjustment.upper } } u

theorem reset_units_frame (g : TimeCtlGUI) (u : String) (mt : ℤ) :
    TimeCtlGUI.reset mt { g with units_combo_text := u } =
      ({ (TimeCtlGUI.reset mt g).1 with units_combo_text := u },
        (TimeCtlGUI.reset mt g).2) := by
  rcases g with ⟨sr, psz, ig, adj, lat, tt, u0⟩
  rcases lat with _ | l
  · rcases tt with _ | t
    · rw [reset_none_eqn (g := ⟨sr, psz, ig, adj, none, none, u⟩) mt rfl rfl,
        reset_none_eqn (g := ⟨sr, psz, ig, adj, none, none, u0⟩) mt rfl rfl]
    · rw [reset_tailtime_eqn (g := ⟨sr, psz, ig, adj, none, some t, u⟩) (t := t) mt rfl rfl,
        reset_tailtime_eqn (g := ⟨sr, psz, ig, adj, none, some t, u0⟩) (t := t) mt rfl rfl]
  · rw [reset_latent_eqn (g := ⟨sr, psz, ig, adj, some l, tt, u⟩) (l := l) mt rfl,
      reset_latent_eqn (g := ⟨sr, psz, ig, adj, some l, tt, u0⟩) (l := l) mt rfl]

theorem refresh_units_frame (g : TimeCtlGUI) (u : String) (mt : ℤ) :
    TimeCtlGUI.refresh mt { g with units_combo_text := u } =
      ({ (TimeCtlGUI.refresh mt g).1 with units_combo_text := u },
        (TimeCtlGUI.refresh mt g).2) := by
  rcases g with ⟨sr, psz, ig, adj, lat, tt, u0⟩
  rcases lat with _ | l
  · rcases tt with _ | t
    · rw [refresh_none_eqn (g := ⟨sr, psz, ig, adj, none, none, u⟩) mt rfl rfl,
        refresh_none_eqn (g := ⟨sr, psz, ig, adj, none, none, u0⟩) mt rfl rfl]
    · rw [refresh_tailtime_eqn (g := ⟨sr, psz, ig, adj, none, some t, u⟩) (t := t) mt rfl rfl,
        refresh_tailtime_eqn (g := ⟨sr, psz, ig, adj, none, some t, u0⟩) (t := t) mt rfl rfl]
  · rw [refresh_latent_eqn (g := ⟨sr, psz, ig, adj, some l, tt, u⟩) (l := l) mt rfl,
      refresh_latent_eqn (g := ⟨sr, psz, ig, adj, some l, tt, u0⟩) (l := l) mt rfl]

/-- C7: the selected unit determines only the increment magnitude of the
plus/minus buttons — shift 1 for sample, sample_rate / 1000 for msec,
period_size for period; a positive direction requests the current value
plus the shift and a non-positive direction the current value minus it
(landing exactly there whenever the target is inside the adjustment
range); and the unit selection affects no other operation: finish, reset,
refresh and the Controllable set_value all commute with changing the
units combo text. -/
theorem unit_selection_scales_button_shift :
    ∀ (g : TimeCtlGUI) (dir : ℤ),
      (g.units_combo_text = "sample" → g.unit_shift = some 1) ∧
      (g.units_combo_text = "msec" → g.unit_shift = some ((g.sample_rate : ℚ) / 1000)) ∧
      (g.units_combo_text = "period" → g.unit_shift = some ((g.period_size : ℚ))) ∧
      (∀ shift : ℚ, g.unit_shift = some shift →
        (0 < dir →
          g.change_from_button dir =
            some (g.set_value_notify (g.adjustment.value + shift)) ∧
          (g.adjustment.lower ≤ g.adjustment.value + shift →
            g.adjustment.value + shift ≤ g.adjustment.upper →
            (g.set_value_notify (g.adjustment.value + shift)).1.adjustment.value =
              g.adjustment.value + shift)) ∧
        (dir ≤ 0 →
          g.change_from_button dir =
            some (g.set_value_notify (g.adjustment.value - shift)) ∧
          (g.adjustment.lower ≤ g.adjustment.value - shift →
            g.adjustment.value - shift ≤ g.adjustment.upper →
            (g.set_value_notify (g.adjustment.value - shift)).1.adjustment.value =
              g.adjustment.value - shift))) ∧
      (∀ (u : String) (mt : ℤ) (v : ℚ),
        TimeCtlGUI.finish { g with units_combo_text := u } =
          ({ g.finish.1 with units_combo_text := u }, g.finish.2) ∧
        TimeCtlGUI.reset mt { g with units_combo_text := u } =
          ({ (TimeCtlGUI.reset mt g).1 with units_combo_text := u },
            (TimeCtlGUI.reset mt g).2) ∧
        TimeCtlGUI.refresh mt { g with units_combo_text := u } =
          ({ (TimeCtlGUI.refresh mt g).1 with units_combo_text := u },
            (TimeCtlGUI.refresh mt g).2) ∧
        TimeCtlGUI.ctrl_set_value { g with units_combo_text := u } v =
          ({ (g.ctrl_set_value v).1 with units_combo_text := u },
            (g.ctrl_set_value v).2)) := by
  intro g dir
  refine ⟨?_, ?_, ?_, ?_, ?_⟩
  · intro h
    simp [TimeCtlGUI.unit_shift, h]
  · intro h
    by_cases h1 : g.units_combo_text = "sample"
    · rw [h1] at h
      exact absurd h (by decide)
    · simp [TimeCtlGUI.unit_shift, h, h1]
  · intro h
    by_cases h1 : g.units_combo_text = "sample"
    · rw [h1] at h
      exact absurd h (by decide)
    · by_cases h2 : g.units_combo_text = "msec"
      · rw [h2] at h
        exact absurd h (by decide)
      · simp [TimeCtlGUI.unit_shift, h, h1, h2]
  · intro shift hs
    constructor
    · intro hd
      constructor
      · unfold TimeCtlGUI.change_from_button
        rw [hs]
        dsimp only
        rw [if_pos hd]
      · intro hlo hhi
        rw [svn_fst_adjustment]
        exact gtkClamp_of_mem hlo hhi
    · intro hd
      constructor
      · unfold TimeCtlGUI.change_from_button
        rw [hs]
        dsimp only
        rw [if_neg (not_lt.mpr hd)]
      · intro hlo hhi
        rw [svn_fst_adjustment]
        exact gtkClamp_of_mem hlo hhi
  · intro u mt v
    exact ⟨finish_units_frame g u, reset_units_frame g u mt,
      refresh_units_frame g u mt, svn_units_frame g u v⟩

/-- C7 (witness): on a concrete Latent widget with the sample unit, the
shift is 1 and pressing plus moves the adjustment from 2 to 3. -/
theorem unit_selection_scales_button_shift_witness :
    witGUI3.unit_shift = some 1 ∧
    witGUI3.change_from_button 1 =
      some (witGUI3.set_value_notify (witGUI3.adjustment.value + 1)) ∧
    (witGUI3.set_value_notify (witGUI3.adjustment.value + 1)).1.adjustment.value = 3 := by
  have h := unit_selection_scales_button_shift witGUI3 1
  have hs : witGUI3.unit_shift = some 1 := h.1 rfl
  have hmain := (h.2.2.2.1 1 hs).1 (by norm_num)
  refine ⟨hs, hmain.1, ?_⟩
  have hv := hmain.2 (by norm_num [witGUI3]) (by norm_num [witGUI3])
  rw [hv]
  norm_num [witGUI3]

/-! ### C8 -/

/-- C8: construction initializes the adjustment to
min (sample_rate, signal value) — signal_latency for the Latent
constructor, signal_tailtime for the TailTime constructor (exactly so for
nonnegative rates and signal values) — and performs no external call at
all: the event log of construction is empty, because init connects the
value-changed handler only after the initial set_value. -/
theorem construction_initializes_without_push :
    ∀ (l : Latent) (t : TailTime) (sr psz : ℤ), 0 ≤ sr →
      ((mkLatentGUI l sr psz).2 = [] ∧
        (mkLatentGUI l sr psz).1.latent = some l ∧
        (0 ≤ l.signal_latency →
          (mkLatentGUI l sr psz).1.adjustment.value =
            ((min sr l.signal_latency : ℤ) : ℚ))) ∧
      ((mkTailTimeGUI t sr psz).2 = [] ∧
        (mkTailTimeGUI t sr psz).1.tailtime = some t ∧
        (0 ≤ t.signal_tailtime →
          (mkTailTimeGUI t sr psz).1.adjustment.value =
            ((min sr t.signal_tailtime : ℤ) : ℚ))) := by
  intro l t sr psz hsr
  refine ⟨⟨rfl, rfl, ?_⟩, ⟨rfl, rfl, ?_⟩⟩
  · intro hsig
    show gtkClamp ((min sr l.signal_latency : ℤ) : ℚ) 0 (sr : ℚ) =
      ((min sr l.signal_latency : ℤ) : ℚ)
    refine gtkClamp_of_mem ?_ ?_
    · exact_mod_cast le_min hsr hsig
    · exact_mod_cast min_le_left sr l.signal_latency
  · intro hsig
    show gtkClamp ((min sr t.signal_tailtime : ℤ) : ℚ) 0 ((20 * sr : ℤ) : ℚ) =
      ((min sr t.signal_tailtime : ℤ) : ℚ)
    refine gtkClamp_of_mem ?_ ?_
    · exact_mod_cast le_min hsr hsig
    · have : (min sr t.signal_tailtime : ℤ) ≤ 20 * sr := by
        have h1 : (min sr t.signal_tailtime : ℤ) ≤ sr := min_le_left _ _
        linarith
      exact_mod_cast this

/-- C8 (witness): constructing a Latent widget with signal latency 5 at
sample rate 10 yields adjustment value 5 and an empty event log. -/
theorem construction_initializes_without_push_witness :
    (mkLatentGUI { signal_lat := 5, user_lat := 0, use_user := false } 10 2).2 = [] ∧
    (mkLatentGUI { signal_lat := 5, user_lat := 0, use_user := false } 10 2).1.adjustment.value
      = 5 := by
  have h := (construction_initializes_without_push
    { signal_lat := 5, user_lat := 0, use_user := false }
    { signal_tail := 0, user_tail := 0, use_user := false } 10 2 (by norm_num)).1
  refine ⟨h.1, ?_⟩
  rw [h.2.2 (by norm_num [Latent.signal_latency])]
  norm_num [Latent.signal_latency]

/-! ### C9 -/

/-- A concrete TailTime widget whose signal tail-time 30 exceeds the
config cap 25 used in the witness, both far below the adjustment upper
bound 200. -/
def witGUI9 : TimeCtlGUI :=
  { sample_rate := 10, period_size := 2, ignore_change := false,
    adjustment := { value := 4, lower := 0, upper := 200,
                    step_increment := 1/100, page_increment := 1, page_size := 5 },
    latent := none,
    tailtime := some { signal_tail := 30, user_tail := 0, use_user := false },
    units_combo_text := "sample" }

/-- C9: the Latent constructor configures the adjustment with range
[0, sample_rate] and step 1, the TailTime constructor with range
[0, 20 * sample_rate] and step sample_rate / 1000; and on a TailTime
widget reset and refresh clamp the pulled value with
Config->get_max_tail_samples() (the mt argument) — not with the
adjustment's upper bound — before the range clamp of set_value. -/
theorem constructor_ranges_and_tail_clamp :
    ∀ (l : Latent) (t : TailTime) (sr psz mt : ℤ) (g : TimeCtlGUI) (tt : TailTime),
      ((mkLatentGUI l sr psz).1.adjustment.lower = 0 ∧
        (mkLatentGUI l sr psz).1.adjustment.upper = (sr : ℚ) ∧
        (mkLatentGUI l sr psz).1.adjustment.step_increment = 1) ∧
      ((mkTailTimeGUI t sr psz).1.adjustment.lower = 0 ∧
        (mkTailTimeGUI t sr psz).1.adjustment.upper = ((20 * sr : ℤ) : ℚ) ∧
        (mkTailTimeGUI t sr psz).1.adjustment.step_increment = (sr : ℚ) / 1000) ∧
      (g.latent = none → g.tailtime = some tt →
        (TimeCtlGUI.reset mt g).1.adjustment =
          g.adjustment.set_value ((min mt tt.signal_tailtime : ℤ) : ℚ) ∧
        (TimeCtlGUI.refresh mt g).1.adjustment =
          g.adjustment.set_value ((min mt tt.effective_tailtime : ℤ) : ℚ)) := by
  intro l t sr psz mt g tt
  refine ⟨⟨rfl, rfl, rfl⟩, ⟨rfl, rfl, rfl⟩, ?_⟩
  intro hl ht
  constructor
  · rw [reset_tailtime_eqn mt hl ht]
  · rw [refresh_tailtime_eqn mt hl ht]

/-- C9 (witness): on a concrete TailTime widget with signal tail-time 30,
config cap 25 and adjustment upper bound 200, reset sets the adjustment
to 25 — the config cap, not the upper bound, limits the pulled value. -/
theorem constructor_ranges_and_tail_clamp_witness :
    (TimeCtlGUI.reset 25 witGUI9).1.adjustment =
      witGUI9.adjustment.set_value
        ((min 25 (TailTime.signal_tailtime
          { signal_tail := 30, user_tail := 0, use_user := false }) : ℤ) : ℚ) ∧
    (TimeCtlGUI.reset 25 witGUI9).1.adjustment.value = 25 ∧
    (25 : ℚ) < witGUI9.adjustment.upper := by
  have h := (constructor_ranges_and_tail_clamp
    { signal_lat := 0, user_lat := 0, use_user := false }
    { signal_tail := 0, user_tail := 0, use_user := false } 10 2 25 witGUI9
    { signal_tail := 30, user_tail := 0, use_user := false }).2.2 rfl rfl
  refine ⟨h.1, ?_, by norm_num [witGUI9]⟩
  rw [show (TimeCtlGUI.reset 25 witGUI9).1.adjustment.value =
      ((TimeCtlGUI.reset 25 witGUI9).1.adjustment).value from rfl, h.1]
  norm_num [witGUI9, Adjustment.set_value, gtkClamp, TailTime.signal_tailtime]

end TimeCtl
